import Mathlib

/-!
Shallow embedding of the RAG chat backend (prototipo-cassa-gpt).

The embedding models the chat endpoint `handle_chat_message`
(backend/routers/chat.py), the session-upload endpoint
`upload_file_to_conversation` (same file), the knowledge-base background
job `process_kb_upload_task` (backend/routers/knowledge_bases.py) and the
conversation-creation endpoint `create_conversation`.

External collaborators (embedding provider, generation provider, vector
index, relational commit) are resolved by an explicit environment record:
each field fixes the outcome of one external call of the turn.  The
relational store is a list of committed message rows; the pending
SQLAlchemy session is turn-local and is discarded on every failing exit
path (explicit `db.rollback()` or the request-scoped `db.close()` in
`get_db`), so only committed rows are threaded through.  Vector values are
opaque (`List Int` stands for the float vectors, whose contents the
control flow never inspects).
-/

deriving instance DecidableEq for Except

namespace CassaGPT

/-! ## Data model -/

/-- An embedding vector.  The code never inspects the float entries, so the
element type is opaque here. -/
abbrev Vec := List Int

/-- The payload map attached to a vector record, restricted to the keys the
chat endpoint reads with `.get`: `text`, `source_filename`, `speaker`.
A `none` field models a missing key. -/
structure Payload where
  text : Option String := none
  sourceFilename : Option String := none
  speaker : Option String := none
deriving Repr, DecidableEq

/-- One scored search hit returned by `QdrantService.search_points`. -/
structure Hit where
  id : String
  score : Int
  payload : Payload
deriving Repr, DecidableEq

/-- A row of the `messages` table (the columns the chat turn writes). -/
structure MessageRow where
  id : String
  conversationId : String
  speaker : String
  text : String
deriving Repr, DecidableEq

/-- A point upserted into the `collection_chat_history` collection. -/
structure HistoryPoint where
  id : String
  vector : Vec
  conversationId : String
  speaker : String
  text : String
  timestamp : String
deriving Repr, DecidableEq

/-- One entry of the `sources` list of the chat response
(`SourceInfoSchema`). -/
structure SourceInfo where
  type : String
  filename : String
  score : Int
  text : String
deriving Repr, DecidableEq

/-! ## Python string helpers used by the endpoint -/

/-- Python `str.capitalize()`: first character upper-cased, the rest
lower-cased. -/
def pyCapitalize (s : String) : String :=
  match s.data with
  | [] => ""
  | c :: cs => String.mk (c.toUpper :: cs.map Char.toLower)

/-- The whitespace characters stripped by Python `str.strip()` (ASCII
subset). -/
def isPyWhitespace (c : Char) : Bool :=
  c == ' ' || c == '\t' || c == '\n' || c == '\r' || c == '\x0b' || c == '\x0c'

/-- Python `str.strip()`. -/
def pyStrip (s : String) : String :=
  String.mk (((s.data.dropWhile isPyWhitespace).reverse.dropWhile isPyWhitespace).reverse)

/-- Python `chunk_text[:200] + "..."`, the source-attribution preview. -/
def pyPreview (t : String) : String := t.take 200 ++ "..."

/-! ## Context retrieval: merge with priority, dedup, self-exclusion

The chat endpoint runs three loops (KB hits, upload hits, history hits)
sharing one `processed_qdrant_ids` set; a block is emitted exactly when a
hit survives the seen/self checks and its payload `text` is truthy.  The
three loops differ only in the block label, the source-attribution record
and (for history) the extra self-exclusion check, so they are embedded as
one function indexed by the partition. -/

/-- The three vector partitions, in processing order. -/
inductive Partition
  | kb
  | uploads
  | history
deriving Repr, DecidableEq

/-- Numeric processing rank of a partition (KB before uploads before
history). -/
def partRank : Partition → Nat
  | .kb => 0
  | .uploads => 1
  | .history => 2

/-- One context block together with the vector id and partition it came
from (`processed_qdrant_ids.add(hit.id)` happens exactly when a block is
appended, so emissions and seen-set additions coincide). -/
structure Emission where
  partition : Partition
  id : String
  block : String
deriving Repr, DecidableEq

/-- Python truthiness of `hit.payload.get("text")`: a present, non-empty
string. -/
def usableText (p : Payload) : Option String :=
  match p.text with
  | some t => if t = "" then none else some t
  | none => none

/-- Label prefix of a knowledge-base context block. -/
def kbBlockLabel : String := "Context from Knowledge Base document \x27"

/-- Label prefix of a session-upload context block. -/
def uploadBlockLabel : String := "Context from session uploaded file \x27"

/-- The formatted context block for a usable hit, per partition. -/
def stageBlock : Partition → Payload → String → String
  | .kb, p, t => kbBlockLabel ++ p.sourceFilename.getD "N/A" ++ "\x27:\n" ++ t
  | .uploads, p, t => uploadBlockLabel ++ p.sourceFilename.getD "N/A" ++ "\x27:\n" ++ t
  | .history, p, t => pyCapitalize (p.speaker.getD "unknown") ++ ": " ++ t

/-- The source-attribution records appended for a usable hit (none for
history: history is not cited as a source). -/
def stageSource : Partition → Hit → String → List SourceInfo
  | .kb, h, t => [⟨"knowledge_base", h.payload.sourceFilename.getD "N/A", h.score, pyPreview t⟩]
  | .uploads, h, t => [⟨"session_upload", h.payload.sourceFilename.getD "N/A", h.score, pyPreview t⟩]
  | .history, _, _ => []

/-- One partition loop of step 5 of `handle_chat_message`: skip seen ids
(and, for history, the id of the user message just stored), emit a block
for each hit with truthy payload text, and mark the id as seen. -/
def processHits (part : Partition) (userMessageId : String) :
    List Hit → List String → List Emission × List SourceInfo × List String
  | [], seen => ([], [], seen)
  | h :: rest, seen =>
    if h.id ∈ seen ∨ (part = .history ∧ h.id = userMessageId) then
      processHits part userMessageId rest seen
    else
      match usableText h.payload with
      | some t =>
        let e : Emission := ⟨part, h.id, stageBlock part h.payload t⟩
        let r := processHits part userMessageId rest (h.id :: seen)
        (e :: r.1, stageSource part h t ++ r.2.1, r.2.2)
      | none => processHits part userMessageId rest seen

/-- The canned fallback context sentence. -/
def noContextFallback : String :=
  "No specific context found from knowledge base, previous messages or session documents."

/-- Result of the combine-and-format step. -/
structure RetrievalResult where
  emissions : List Emission
  sources : List SourceInfo
  contextChunks : List String
  contextString : String
deriving Repr, DecidableEq

/-- Step 5 of `handle_chat_message`: process KB, then upload, then history
hits against one shared seen-set, and join the blocks with the fixed
separator. -/
def combineContext (kbHits uploadHits historyHits : List Hit) (userMessageId : String) :
    RetrievalResult :=
  let kb := processHits .kb userMessageId kbHits []
  let up := processHits .uploads userMessageId uploadHits kb.2.2
  let hist := processHits .history userMessageId historyHits up.2.2
  let emissions := kb.1 ++ up.1 ++ hist.1
  { emissions := emissions
    sources := kb.2.1 ++ up.2.1
    contextChunks := emissions.map Emission.block
    contextString := String.intercalate "\n\n---\n\n" (emissions.map Emission.block) }

/-- A partition search result list yields a usable occurrence of a vector
id when some hit carries that id together with truthy payload text. -/
def usableHitIn (hits : List Hit) (x : String) : Prop :=
  ∃ h ∈ hits, h.id = x ∧ (usableText h.payload).isSome

/-- The empty/whitespace-only substitution applied to the combined context
string before prompt building. -/
def finalContextString (r : RetrievalResult) : String :=
  if pyStrip r.contextString = "" then noContextFallback else r.contextString

/-- Step 6 of `handle_chat_message`: the deterministic prompt template. -/
def buildPrompt (contextString userQuery : String) : String :=
  "You are CassaGPT, a helpful AI assistant.\nAnswer the user\x27s query based ONLY on the provided context below. If the context does not contain the answer, state that you cannot answer based on the provided information. Do not use external knowledge. Be concise.\n\n--- Context ---\n"
    ++ contextString
    ++ "\n--- End Context ---\n\nUser Query: "
    ++ userQuery
    ++ "\n\nAssistant Response:"

/-! ## Chat turn orchestration (`handle_chat_message`)

Each external call of the turn is resolved by a field of `ChatEnv`.
Provider failures distinguish an `HTTPException` raised to the caller
unchanged (`except HTTPException as e: raise e`) from any other exception,
which lands in the generic handler (`db.rollback()` then a wrapped 500).
Both exits leave the pending relational adds uncommitted. -/

/-- How a failing external call surfaces inside `handle_chat_message`. -/
inductive CallError
  | http (status : Nat) (detail : String)
  | other (detail : String)
deriving Repr, DecidableEq

/-- The error response produced for a propagating exception: an
`HTTPException` keeps its status and detail, anything else becomes the
wrapped 500 of the generic handler. -/
def chatErrorResponse : CallError → Nat × String
  | .http s d => (s, d)
  | .other d => (500, "An internal error occurred during chat processing: " ++ d)

/-- Outcomes of the external calls made during one chat turn, plus the ids
and timestamp the endpoint generates (`uuid4`, `datetime.now`). -/
structure ChatEnv where
  conversationExists : Bool
  kbId : Option String
  userMessageId : String
  aiMessageId : String
  timestamp : String
  embedQuery : Except CallError (List Vec)
  userUpsert : Except String Unit
  kbSearch : Except String (List Hit)
  uploadSearch : Except String (List Hit)
  historySearch : Except String (List Hit)
  modelId : Option String
  generate : Except CallError String
  aiEmbed : Except CallError (List Vec)
  aiUpsert : Except String Unit
  commit : Except String Unit
deriving Repr, DecidableEq

/-- The durable state the turn can change: committed message rows and the
points of the `collection_chat_history` collection. -/
structure ChatState where
  messages : List MessageRow
  history : List HistoryPoint
deriving Repr, DecidableEq

/-- The successful chat response body (`ChatResponseSchema`). -/
structure ChatResponse where
  response : String
  conversationId : String
  sources : List SourceInfo
deriving Repr, DecidableEq

/-- One `search_points` call with the collection name and limit it was
issued with. -/
structure SearchCall where
  collection : String
  limit : Nat
deriving Repr, DecidableEq

/-- `search_limit_kb` in `handle_chat_message`. -/
def searchLimitKb : Nat := 4

/-- `search_limit_uploads` in `handle_chat_message`. -/
def searchLimitUploads : Nat := 3

/-- `search_limit_history` in `handle_chat_message` (the search itself is
issued with this plus one). -/
def searchLimitHistory : Nat := 3

/-- The default generation model id, used when the conversation row has a
falsy `model_id`. -/
def defaultModelId : String := "meta-llama/Llama-3.3-70B-Instruct-Turbo-Free"

/-- Everything one chat turn produces: the HTTP result, the durable state
afterwards, the searches issued, and (when the turn got that far) the
retrieval result, the context string and the prompt handed to generation. -/
structure TurnOutcome where
  result : Except (Nat × String) ChatResponse
  state : ChatState
  calls : List SearchCall
  retrieval : Option RetrievalResult
  context : Option String
  prompt : Option String
deriving Repr, DecidableEq

/-- Python truthiness of an optional string (`if kb_id:`): present and
non-empty. -/
def truthyOptStr : Option String → Bool
  | none => false
  | some s => s != ""

/-- The vector point of the user message stored in
`collection_chat_history` before retrieval. -/
def userHistoryPoint (env : ChatEnv) (conversationId userQuery : String) (queryVector : Vec) :
    HistoryPoint :=
  ⟨env.userMessageId, queryVector, conversationId, "user", userQuery, env.timestamp⟩

/-- Results a partition search contributes: a caught exception leaves the
initialized empty list in place. -/
def searchResultsOrEmpty : Except String (List Hit) → List Hit
  | .ok hits => hits
  | .error _ => []

/-- The KB search results actually used: the KB search only runs when the
conversation has a truthy linked `kb_id`. -/
def effectiveKbResults (env : ChatEnv) : List Hit :=
  if truthyOptStr env.kbId then searchResultsOrEmpty env.kbSearch else []

/-- The upload search results actually used. -/
def effectiveUploadResults (env : ChatEnv) : List Hit :=
  searchResultsOrEmpty env.uploadSearch

/-- The history search results actually used. -/
def effectiveHistoryResults (env : ChatEnv) : List Hit :=
  searchResultsOrEmpty env.historySearch

/-- The `search_points` calls issued in step 4. -/
def searchCallsMade (env : ChatEnv) : List SearchCall :=
  (if truthyOptStr env.kbId then [⟨"collection_kb", searchLimitKb⟩] else [])
    ++ [⟨"collection_uploads", searchLimitUploads⟩,
        ⟨"collection_chat_history", searchLimitHistory + 1⟩]

/-- The model id passed to generation: the conversation row's `model_id`
`or` the default. -/
def modelIdUsed (env : ChatEnv) : String :=
  match env.modelId with
  | some m => if m = "" then defaultModelId else m
  | none => defaultModelId

/-- Steps 4-9 of `handle_chat_message`, entered after the user message row
is pending and its vector is stored: search the three partitions
(exceptions caught per partition), combine the context, build the prompt,
generate, stage the AI row, best-effort embed and store the AI vector, and
commit both rows. -/
def chatAfterStore (env : ChatEnv) (conversationId userQuery : String)
    (userRow : MessageRow) (st1 : ChatState) : TurnOutcome :=
  let retrieval := combineContext (effectiveKbResults env) (effectiveUploadResults env)
      (effectiveHistoryResults env) env.userMessageId
  let contextString := finalContextString retrieval
  let prompt := buildPrompt contextString userQuery
  let calls := searchCallsMade env
  match env.generate with
  | .error ce =>
      { result := .error (chatErrorResponse ce), state := st1, calls := calls
        retrieval := some retrieval, context := some contextString, prompt := some prompt }
  | .ok aiText =>
      let aiRow : MessageRow := ⟨env.aiMessageId, conversationId, "ai", aiText⟩
      let st2 : ChatState :=
        match env.aiEmbed with
        | .ok aiEmbedding =>
            if aiEmbedding.isEmpty then st1
            else
              match env.aiUpsert with
              | .ok _ =>
                  { st1 with history := st1.history ++
                      [⟨env.aiMessageId, aiEmbedding.headI, conversationId, "ai", aiText,
                        env.timestamp⟩] }
              | .error _ => st1
        | .error _ => st1
      match env.commit with
      | .ok _ =>
          { result := .ok ⟨aiText, conversationId, retrieval.sources⟩
            state := { st2 with messages := st2.messages ++ [userRow, aiRow] }
            calls := calls, retrieval := some retrieval
            context := some contextString, prompt := some prompt }
      | .error msg =>
          { result := .error (chatErrorResponse (.other ("Database commit error: " ++ msg)))
            state := st2, calls := calls, retrieval := some retrieval
            context := some contextString, prompt := some prompt }

/-- `handle_chat_message` (backend/routers/chat.py): validate the
conversation, embed the query, stage the user row and store its vector
(rolling the pending add back if the upsert fails), then hand over to
`chatAfterStore`. -/
def handleChatMessage (env : ChatEnv) (conversationId userQuery : String) (st : ChatState) :
    TurnOutcome :=
  if env.conversationExists then
    match env.embedQuery with
    | .error ce =>
        { result := .error (chatErrorResponse ce), state := st, calls := []
          retrieval := none, context := none, prompt := none }
    | .ok embeddings =>
      if embeddings.length ≠ 1 then
        { result := .error (500, "Failed to embed user query."), state := st, calls := []
          retrieval := none, context := none, prompt := none }
      else
        let queryVector := embeddings.headI
        let userRow : MessageRow := ⟨env.userMessageId, conversationId, "user", userQuery⟩
        match env.userUpsert with
        | .error msg =>
            { result := .error (500, "Failed to store user message vector: " ++ msg)
              state := st, calls := [], retrieval := none, context := none, prompt := none }
        | .ok _ =>
            chatAfterStore env conversationId userQuery userRow
              { st with history := st.history ++
                  [userHistoryPoint env conversationId userQuery queryVector] }
  else
    { result := .error (404, "Conversation ID \x27" ++ conversationId ++ "\x27 not found.")
      state := st, calls := [], retrieval := none, context := none, prompt := none }

/-! ## Session upload (`upload_file_to_conversation`)

The Cloudinary detour for images only changes how the text handed to
`process_document` is obtained; the zero-chunk handling below is common to
both branches, so extraction-and-chunking is resolved by one environment
field. -/

/-- Outcomes of the external calls of one session-upload request. -/
structure SessionUploadEnv where
  conversationExists : Bool
  filename : String
  processResult : Except String (List String)
  embed : Except CallError (List Vec)
  upsert : Except String Unit
  metaSave : Except String Unit
  sessionDocId : String
deriving Repr, DecidableEq

/-- The JSON body returned by a successful session upload. -/
structure SessionUploadResult where
  message : String
  filename : String
  docId : Option String
  chunksAdded : Nat
deriving Repr, DecidableEq

/-- The "no content" body of the session path. -/
def sessionNoContentMessage : String :=
  "File received but no processable content found or generated."

/-- `upload_file_to_conversation` (backend/routers/chat.py): validate the
conversation and filename, extract and chunk, return the non-error
no-content body on zero chunks, otherwise embed, upsert the chunk points
and save the metadata row plus system message. -/
def uploadFileToConversation (env : SessionUploadEnv) (conversationId : String) :
    Except (Nat × String) SessionUploadResult :=
  if env.conversationExists then
    if env.filename = "" then .error (400, "Filename cannot be empty")
    else
      match env.processResult with
      | .error e => .error (500, "Error processing document: " ++ e)
      | .ok chunks =>
        if chunks.isEmpty then
          .ok ⟨sessionNoContentMessage, env.filename, none, 0⟩
        else
          match env.embed with
          | .error (.http s d) => .error (s, d)
          | .error (.other d) => .error (502, "Failed to generate embeddings: " ++ d)
          | .ok embeddings =>
            if embeddings.length ≠ chunks.length then
              .error (500, "Mismatch between number of chunks and embeddings received.")
            else
              match env.upsert with
              | .error e => .error (500, "Failed to store document chunks: " ++ e)
              | .ok _ =>
                match env.metaSave with
                | .error e =>
                    .error (500,
                      "File indexed in vector store, but failed to save metadata to DB: " ++ e)
                | .ok _ =>
                    .ok ⟨"Session file processed and indexed successfully.", env.filename,
                      some env.sessionDocId, chunks.length⟩
  else
    .error (404, "Conversation ID \x27" ++ conversationId ++ "\x27 not found.")

/-! ## Knowledge-base background job (`process_kb_upload_task`)

Non-image path of the background task, followed by the common
embed-and-store logic and the `finally` block that persists the terminal
document status.  The job never raises to a caller; its observable result
is the status/error-message pair written to the `KnowledgeBaseDocument`
row. -/

/-- Outcomes of the external calls of one KB background-processing run. -/
structure KbTaskEnv where
  processResult : Except String (List String)
  embed : Except String (List Vec)
  upsert : Except String Unit
deriving Repr, DecidableEq

/-- The terminal state written to the `KnowledgeBaseDocument` row. -/
structure KbTaskFinal where
  status : String
  errorMessage : Option String
deriving Repr, DecidableEq

/-- `process_kb_upload_task` (backend/routers/knowledge_bases.py),
non-image path: `status` starts as `"error"` and becomes `"completed"`
only when chunking, embedding and the Qdrant upsert all succeed; zero
extracted chunks leave the default error status with a no-content
message. -/
def processKbUploadTask (env : KbTaskEnv) : KbTaskFinal :=
  let step1 : List String × Option String :=
    match env.processResult with
    | .ok cs =>
        if cs.isEmpty then (cs, some "Document processor returned no content for non-image file.")
        else (cs, none)
    | .error e => ([], some ("Error during document processing: " ++ e))
  let chunks := step1.1
  let errMsg := step1.2
  let final : String × Option String :=
    if ¬ chunks.isEmpty ∧ errMsg = none then
      match env.embed with
      | .ok embeddings =>
          if embeddings.length ≠ chunks.length then ("error", some "Embedding count mismatch.")
          else
            match env.upsert with
            | .ok _ => ("completed", none)
            | .error e => ("error", some ("Embedding/Storage failed: " ++ e))
      | .error e => ("error", some ("Embedding/Storage failed: " ++ e))
    else if errMsg = none ∧ chunks.isEmpty then
      ("error", some "No processable content found or generated.")
    else ("error", errMsg)
  ⟨final.1,
    if final.1 = "error" ∧ final.2 = none then
      some "An unspecified error occurred during processing."
    else final.2⟩

/-! ## Conversation creation (`create_conversation`) -/

/-- The optional request payload (`ConversationCreatePayloadSchema`). -/
structure CreatePayload where
  knowledgeBaseId : Option String := none
  modelId : Option String := none
deriving Repr, DecidableEq

/-- Outcomes of the external calls of one create-conversation request:
whether the KB existence check found the row (or raised), and whether the
insert committed. -/
structure CreateEnv where
  newConversationId : String
  kbCheck : Except String Bool
  commit : Except String Unit
deriving Repr, DecidableEq

/-- The columns of the created `conversations` row. -/
structure ConversationRow where
  id : String
  knowledgeBaseId : Option String
  modelId : Option String
deriving Repr, DecidableEq

/-- `create_conversation` (backend/routers/chat.py): a truthy requested KB
id is kept only when the existence check succeeds and finds the row; a
missing row or a raised database error silently drops the link.  The
payload's `model_id` is stored as given whenever a payload is present. -/
def createConversation (env : CreateEnv) (payload : Option CreatePayload) :
    Except (Nat × String) ConversationRow :=
  let kbRequested : Option String :=
    match payload with
    | some p =>
        match p.knowledgeBaseId with
        | some k => if k = "" then none else some k
        | none => none
    | none => none
  let modelIdToStore : Option String :=
    match payload with
    | some p => p.modelId
    | none => some defaultModelId
  let kbIdToStore : Option String :=
    match kbRequested with
    | some k =>
        match env.kbCheck with
        | .ok true => some k
        | .ok false => none
        | .error _ => none
    | none => none
  match env.commit with
  | .ok _ => .ok ⟨env.newConversationId, kbIdToStore, modelIdToStore⟩
  | .error e =>
      .error (500,
        "Failed to create conversation: Database error during conversation creation: " ++ e)

/-! ## Concrete instances used to exercise the theorems -/

/-- An initial durable state with no committed rows and no history
vectors. -/
def emptyState : ChatState := ⟨[], []⟩

/-- A chat environment in which every external call succeeds and each
partition search returns one usable hit (the history search additionally
returns the just-stored user message back). -/
def okChatEnv : ChatEnv where
  conversationExists := true
  kbId := some "kb1"
  userMessageId := "um"
  aiMessageId := "am"
  timestamp := "t0"
  embedQuery := .ok [[1]]
  userUpsert := .ok ()
  kbSearch := .ok [⟨"k1", 9, ⟨some "kb text", some "a.pdf", none⟩⟩]
  uploadSearch := .ok [⟨"u1", 6, ⟨some "up text", some "up.txt", none⟩⟩]
  historySearch := .ok [⟨"h1", 5, ⟨some "hi there", none, some "user"⟩⟩,
    ⟨"um", 4, ⟨some "hello", none, some "user"⟩⟩]
  modelId := none
  generate := .ok "answer"
  aiEmbed := .ok [[2]]
  aiUpsert := .ok ()
  commit := .ok ()

/-! ## Lemmas about the partition loops -/

lemma processHits_partition (part : Partition) (uid : String) :
    ∀ (hits : List Hit) (seen : List String),
      ∀ e ∈ (processHits part uid hits seen).1, e.partition = part := by
  intro hits
  induction hits with
  | nil => intro seen e he; simp [processHits] at he
  | cons h rest ih =>
    intro seen e he
    rw [processHits] at he
    split at he
    · exact ih seen e he
    · split at he
      · simp only [List.mem_cons] at he
        rcases he with rfl | he
        · rfl
        · exact ih _ e he
      · exact ih seen e he

lemma processHits_notMem_seen (part : Partition) (uid : String) :
    ∀ (hits : List Hit) (seen : List String),
      ∀ e ∈ (processHits part uid hits seen).1, e.id ∉ seen := by
  intro hits
  induction hits with
  | nil => intro seen e he; simp [processHits] at he
  | cons h rest ih =>
    intro seen e he
    rw [processHits] at he
    split at he
    · exact ih seen e he
    next hcond =>
      split at he
      · simp only [List.mem_cons] at he
        rcases he with rfl | he
        · intro hmem
          exact hcond (Or.inl hmem)
        · have := ih (h.id :: seen) e he
          intro hmem
          exact this (List.mem_cons_of_mem _ hmem)
      · exact ih seen e he

lemma processHits_seen_mem (part : Partition) (uid : String) :
    ∀ (hits : List Hit) (seen : List String) (x : String),
      x ∈ (processHits part uid hits seen).2.2 ↔
        (∃ e ∈ (processHits part uid hits seen).1, e.id = x) ∨ x ∈ seen := by
  intro hits
  induction hits with
  | nil => intro seen x; simp [processHits]
  | cons h rest ih =>
    intro seen x
    rw [processHits]
    split
    · simpa using ih seen x
    · split
      · have h1 := ih (h.id :: seen) x
        simp only [List.mem_cons] at h1
        simp only [List.mem_cons]
        constructor
        · intro hx
          rcases (h1.mp hx) with he | rfl | hs
          · rcases he with ⟨e, he, rfl⟩
            exact Or.inl ⟨e, Or.inr he, rfl⟩
          · exact Or.inl ⟨_, Or.inl rfl, rfl⟩
          · exact Or.inr hs
        · intro hx
          rcases hx with ⟨e, he, rfl⟩ | hs
          · rcases he with rfl | he
            · exact h1.mpr (Or.inr (Or.inl rfl))
            · exact h1.mpr (Or.inl ⟨e, he, rfl⟩)
          · exact h1.mpr (Or.inr (Or.inr hs))
      · simpa using ih seen x

lemma processHits_nodup (part : Partition) (uid : String) :
    ∀ (hits : List Hit) (seen : List String),
      ((processHits part uid hits seen).1.map Emission.id).Nodup := by
  intro hits
  induction hits with
  | nil => intro seen; simp [processHits]
  | cons h rest ih =>
    intro seen
    rw [processHits]
    split
    · exact ih seen
    · split
      · simp only [List.map_cons, List.nodup_cons]
        refine ⟨?_, ih _⟩
        intro hmem
        simp only [List.mem_map] at hmem
        rcases hmem with ⟨e, he, hid⟩
        have := processHits_notMem_seen part uid rest (h.id :: seen) e he
        exact this (by simp [hid])
      · exact ih seen

lemma processHits_sound (part : Partition) (uid : String) :
    ∀ (hits : List Hit) (seen : List String),
      ∀ e ∈ (processHits part uid hits seen).1,
        ∃ h ∈ hits, h.id = e.id ∧ (usableText h.payload).isSome := by
  intro hits
  induction hits with
  | nil => intro seen e he; simp [processHits] at he
  | cons h rest ih =>
    intro seen e he
    rw [processHits] at he
    split at he
    · rcases ih seen e he with ⟨h', hm, hid, hu⟩
      exact ⟨h', List.mem_cons_of_mem _ hm, hid, hu⟩
    · split at he
      next t hsome =>
        simp only [List.mem_cons] at he
        rcases he with rfl | he
        · exact ⟨h, List.mem_cons_self _ _, rfl, by simp [hsome]⟩
        · rcases ih (h.id :: seen) e he with ⟨h', hm, hid, hu⟩
          exact ⟨h', List.mem_cons_of_mem _ hm, hid, hu⟩
      · rcases ih seen e he with ⟨h', hm, hid, hu⟩
        exact ⟨h', List.mem_cons_of_mem _ hm, hid, hu⟩

lemma processHits_complete (part : Partition) (uid : String) :
    ∀ (hits : List Hit) (seen : List String) (x : String),
      x ∉ seen → ¬(part = .history ∧ x = uid) →
      (∃ h ∈ hits, h.id = x ∧ (usableText h.payload).isSome) →
      ∃ e ∈ (processHits part uid hits seen).1, e.id = x := by
  intro hits
  induction hits with
  | nil => intro seen x _ _ hex; simp at hex
  | cons h rest ih =>
    intro seen x hxs hxk hex
    rw [processHits]
    split
    next hcond =>
      rcases hex with ⟨h', hm, hid, hu⟩
      simp only [List.mem_cons] at hm
      rcases hm with rfl | hm
      · exact absurd hcond (by rw [hid]; tauto)
      · exact ih seen x hxs hxk ⟨h', hm, hid, hu⟩
    next hcond =>
      split
      next t hsome =>
        by_cases hx : h.id = x
        · exact ⟨_, List.mem_cons_self _ _, hx⟩
        · rcases hex with ⟨h', hm, hid, hu⟩
          simp only [List.mem_cons] at hm
          rcases hm with rfl | hm
          · exact absurd hid hx
          · have hxs' : x ∉ h.id :: seen := by
              simp only [List.mem_cons]
              rintro (rfl | hc)
              · exact hx rfl
              · exact hxs hc
            rcases ih (h.id :: seen) x hxs' hxk ⟨h', hm, hid, hu⟩ with ⟨e, he, hee⟩
            exact ⟨e, List.mem_cons_of_mem _ he, hee⟩
      next hnone =>
        rcases hex with ⟨h', hm, hid, hu⟩
        simp only [List.mem_cons] at hm
        rcases hm with rfl | hm
        · rw [hnone] at hu
          simp at hu
        · exact ih seen x hxs hxk ⟨h', hm, hid, hu⟩

lemma processHits_history_ne_uid (uid : String) :
    ∀ (hits : List Hit) (seen : List String),
      ∀ e ∈ (processHits .history uid hits seen).1, e.id ≠ uid := by
  intro hits
  induction hits with
  | nil => intro seen e he; simp [processHits] at he
  | cons h rest ih =>
    intro seen e he
    rw [processHits] at he
    split at he
    · exact ih seen e he
    next hcond =>
      split at he
      · simp only [List.mem_cons] at he
        rcases he with rfl | he
        · intro hc
          exact hcond (Or.inr ⟨rfl, hc⟩)
        · exact ih _ e he
      · exact ih seen e he

lemma processHits_block_shape (part : Partition) (uid : String) :
    ∀ (hits : List Hit) (seen : List String),
      ∀ e ∈ (processHits part uid hits seen).1,
        ∃ p t, e.block = stageBlock part p t := by
  intro hits
  induction hits with
  | nil => intro seen e he; simp [processHits] at he
  | cons h rest ih =>
    intro seen e he
    rw [processHits] at he
    split at he
    · exact ih seen e he
    · split at he
      · simp only [List.mem_cons] at he
        rcases he with rfl | he
        · exact ⟨h.payload, _, rfl⟩
        · exact ih _ e he
      · exact ih seen e he

/-! ## Lemmas about the combined retrieval result -/

lemma combineContext_emissions (kbHits upHits histHits : List Hit) (uid : String) :
    (combineContext kbHits upHits histHits uid).emissions =
      (processHits .kb uid kbHits []).1
        ++ (processHits .uploads uid upHits (processHits .kb uid kbHits []).2.2).1
        ++ (processHits .history uid histHits
              (processHits .uploads uid upHits (processHits .kb uid kbHits []).2.2).2.2).1 := rfl

lemma combineContext_ids_nodup (kbHits upHits histHits : List Hit) (uid : String) :
    (((combineContext kbHits upHits histHits uid).emissions).map Emission.id).Nodup := by
  rw [combineContext_emissions]
  have hAmem : ∀ x, x ∈ (processHits .kb uid kbHits []).2.2 ↔
      (∃ e ∈ (processHits .kb uid kbHits []).1, e.id = x) := by
    intro x
    simpa using processHits_seen_mem .kb uid kbHits [] x
  have hBmem := processHits_seen_mem .uploads uid upHits (processHits .kb uid kbHits []).2.2
  simp only [List.map_append]
  rw [List.nodup_append, List.nodup_append]
  refine ⟨⟨processHits_nodup _ _ _ _, processHits_nodup _ _ _ _, ?_⟩,
    processHits_nodup _ _ _ _, ?_⟩
  · -- kb emissions vs upload emissions
    intro x hxA hxB
    simp only [List.mem_map] at hxA hxB
    rcases hxA with ⟨e, heA, rfl⟩
    rcases hxB with ⟨e', heB, hid⟩
    have hnot := processHits_notMem_seen .uploads uid upHits _ e' heB
    rw [hid] at hnot
    exact hnot ((hAmem e.id).mpr ⟨e, heA, rfl⟩)
  · -- kb/upload emissions vs history emissions
    intro x hxAB hxC
    simp only [List.mem_map] at hxC
    rcases hxC with ⟨e', heC, hid⟩
    have hnot := processHits_notMem_seen .history uid histHits _ e' heC
    rw [hid] at hnot
    simp only [List.mem_append, List.mem_map] at hxAB
    rcases hxAB with ⟨e, heA, rfl⟩ | ⟨e, heB, rfl⟩
    · exact hnot ((hBmem e.id).mpr (Or.inr ((hAmem e.id).mpr ⟨e, heA, rfl⟩)))
    · exact hnot ((hBmem e.id).mpr (Or.inl ⟨e, heB, rfl⟩))

lemma filter_id_length_le_one :
    ∀ (l : List Emission), (l.map Emission.id).Nodup →
      ∀ x, (l.filter fun e => e.id == x).length ≤ 1 := by
  intro l
  induction l with
  | nil => simp
  | cons e rest ih =>
    intro h x
    simp only [List.map_cons, List.nodup_cons, List.mem_map] at h
    by_cases hx : e.id = x
    · rw [List.filter_cons_of_pos (by simpa using hx)]
      have hrest : rest.filter (fun e' => e'.id == x) = [] := by
        rw [List.filter_eq_nil_iff]
        intro e' he'
        simp only [beq_iff_eq]
        intro hc
        exact h.1 ⟨e', he', by rw [hc, ← hx]⟩
      simp [hrest]
    · rw [List.filter_cons_of_neg (by simpa using hx)]
      exact ih h.2 x

lemma finalContextString_ne_empty (r : RetrievalResult) : finalContextString r ≠ "" := by
  unfold finalContextString
  split
  · decide
  next h =>
    intro hc
    rw [hc] at h
    exact h rfl

lemma finalContextString_of_strip_empty (r : RetrievalResult)
    (h : pyStrip r.contextString = "") : finalContextString r = noContextFallback := by
  unfold finalContextString
  rw [if_pos h]

/-! ## Reduction of the chat turn under early-step successes -/

lemma handleChatMessage_eq_afterStore (env : ChatEnv) (c q : String) (st : ChatState) (v : Vec)
    (h1 : env.conversationExists = true) (h2 : env.embedQuery = .ok [v])
    (h3 : env.userUpsert = .ok ()) :
    handleChatMessage env c q st =
      chatAfterStore env c q ⟨env.userMessageId, c, "user", q⟩
        { st with history := st.history ++ [userHistoryPoint env c q v] } := by
  simp [handleChatMessage, h1, h2, h3]

lemma chatAfterStore_calls (env : ChatEnv) (c q : String) (row : MessageRow) (st : ChatState) :
    (chatAfterStore env c q row st).calls = searchCallsMade env := by
  unfold chatAfterStore
  cases hg : env.generate with
  | error ce => rfl
  | ok t =>
    cases hc : env.commit with
    | ok u => rfl
    | error m => rfl

lemma chatAfterStore_retrieval (env : ChatEnv) (c q : String) (row : MessageRow) (st : ChatState) :
    (chatAfterStore env c q row st).retrieval =
      some (combineContext (effectiveKbResults env) (effectiveUploadResults env)
        (effectiveHistoryResults env) env.userMessageId) := by
  unfold chatAfterStore
  cases hg : env.generate with
  | error ce => rfl
  | ok t =>
    cases hc : env.commit with
    | ok u => rfl
    | error m => rfl

lemma chatAfterStore_context (env : ChatEnv) (c q : String) (row : MessageRow) (st : ChatState) :
    (chatAfterStore env c q row st).context =
      some (finalContextString (combineContext (effectiveKbResults env)
        (effectiveUploadResults env) (effectiveHistoryResults env) env.userMessageId)) := by
  unfold chatAfterStore
  cases hg : env.generate with
  | error ce => rfl
  | ok t =>
    cases hc : env.commit with
    | ok u => rfl
    | error m => rfl

lemma chatAfterStore_prompt (env : ChatEnv) (c q : String) (row : MessageRow) (st : ChatState) :
    (chatAfterStore env c q row st).prompt =
      some (buildPrompt (finalContextString (combineContext (effectiveKbResults env)
        (effectiveUploadResults env) (effectiveHistoryResults env) env.userMessageId)) q) := by
  unfold chatAfterStore
  cases hg : env.generate with
  | error ce => rfl
  | ok t =>
    cases hc : env.commit with
    | ok u => rfl
    | error m => rfl

lemma handleChatMessage_result_ok (env : ChatEnv) (c q : String) (st : ChatState) (v : Vec)
    (t : String) (h1 : env.conversationExists = true) (h2 : env.embedQuery = .ok [v])
    (h3 : env.userUpsert = .ok ()) (hg : env.generate = .ok t) (hc : env.commit = .ok ()) :
    (handleChatMessage env c q st).result =
      .ok ⟨t, c, (combineContext (effectiveKbResults env) (effectiveUploadResults env)
        (effectiveHistoryResults env) env.userMessageId).sources⟩ := by
  rw [handleChatMessage_eq_afterStore env c q st v h1 h2 h3]
  unfold chatAfterStore
  simp [hg, hc]

/-! ## Claim theorems -/

/-- C1 counterexample: with every step before generation succeeding and the
generation provider raising, the failed turn leaves NO Message row in the
relational store — in particular no row with speaker `user` holding the
query text — because the pending add is rolled back by the generic
exception handler; only the history vector of the user message remains.
This refutes the claim that the user message is already committed when
generation fails. -/
theorem generation_failure_counterexample :
    (handleChatMessage { okChatEnv with generate := .error (.other "boom") }
        "c1" "hello" emptyState).state.messages = []
      ∧ (handleChatMessage { okChatEnv with generate := .error (.other "boom") }
          "c1" "hello" emptyState).result
          = .error (500, "An internal error occurred during chat processing: boom")
      ∧ (handleChatMessage { okChatEnv with generate := .error (.other "boom") }
          "c1" "hello" emptyState).state.history.map HistoryPoint.id = ["um"] :=
  ⟨rfl, rfl, rfl⟩

/-- C1 (amended): if the GenerationProvider call raises during a chat turn,
the turn fails with a generation error and the user message of the turn is
NOT committed to the relational store (the pending relational add is rolled
back, so the committed rows are unchanged), while the user-message vector
already upserted into the chat-history collection does remain. -/
theorem generation_failure_rollback (env : ChatEnv) (c q : String) (st : ChatState)
    (v : Vec) (ce : CallError)
    (h1 : env.conversationExists = true) (h2 : env.embedQuery = .ok [v])
    (h3 : env.userUpsert = .ok ()) (h4 : env.generate = .error ce) :
    (handleChatMessage env c q st).result = .error (chatErrorResponse ce)
      ∧ (handleChatMessage env c q st).state.messages = st.messages
      ∧ (handleChatMessage env c q st).state.history
          = st.history ++ [userHistoryPoint env c q v] := by
  rw [handleChatMessage_eq_afterStore env c q st v h1 h2 h3]
  unfold chatAfterStore
  simp [h4]

/-- C1 witness: the amended theorem applied to a concrete failing
generation call. -/
theorem generation_failure_rollback_witness :
    (handleChatMessage { okChatEnv with generate := .error (.http 502 "bad gateway") }
        "c1" "hello" emptyState).result = .error (chatErrorResponse (.http 502 "bad gateway"))
      ∧ (handleChatMessage { okChatEnv with generate := .error (.http 502 "bad gateway") }
          "c1" "hello" emptyState).state.messages = emptyState.messages
      ∧ (handleChatMessage { okChatEnv with generate := .error (.http 502 "bad gateway") }
          "c1" "hello" emptyState).state.history
          = emptyState.history ++
              [userHistoryPoint { okChatEnv with generate := .error (.http 502 "bad gateway") }
                "c1" "hello" [1]] :=
  generation_failure_rollback _ "c1" "hello" emptyState [1] (.http 502 "bad gateway")
    rfl rfl rfl rfl

/-- C2: if the vector upsert of the user message fails, the pending
relational add is rolled back and the turn aborts with the index-write
error; the durable state (committed Message rows and history vectors) is
exactly what it was before the turn, so no Message row for the turn is
visible afterwards. -/
theorem user_upsert_failure_atomic (env : ChatEnv) (c q : String) (st : ChatState)
    (msg : String) (v : Vec)
    (h1 : env.conversationExists = true) (h2 : env.embedQuery = .ok [v])
    (h3 : env.userUpsert = .error msg) :
    (handleChatMessage env c q st).result
        = .error (500, "Failed to store user message vector: " ++ msg)
      ∧ (handleChatMessage env c q st).state = st := by
  simp [handleChatMessage, h1, h2, h3]

/-- C2 witness: the theorem applied to a concrete failing upsert. -/
theorem user_upsert_failure_atomic_witness :
    (handleChatMessage { okChatEnv with userUpsert := .error "qdrant down" }
        "c1" "hello" emptyState).result
        = .error (500, "Failed to store user message vector: qdrant down")
      ∧ (handleChatMessage { okChatEnv with userUpsert := .error "qdrant down" }
          "c1" "hello" emptyState).state = emptyState :=
  user_upsert_failure_atomic _ "c1" "hello" emptyState "qdrant down" [1] rfl rfl rfl

/-- C7: a raised exception in any single partition search is caught: the
turn is identical to the one in which that partition returned zero hits,
and when the remaining steps succeed the turn still completes with a
response. -/
theorem partition_failure_graceful (env : ChatEnv) (c q : String) (st : ChatState)
    (ekb eup ehist : String) (v : Vec) (t : String)
    (h1 : env.conversationExists = true) (h2 : env.embedQuery = .ok [v])
    (h3 : env.userUpsert = .ok ()) (hg : env.generate = .ok t) (hc : env.commit = .ok ()) :
    (handleChatMessage { env with kbSearch := .error ekb } c q st
        = handleChatMessage { env with kbSearch := .ok [] } c q st)
      ∧ (handleChatMessage { env with uploadSearch := .error eup } c q st
        = handleChatMessage { env with uploadSearch := .ok [] } c q st)
      ∧ (handleChatMessage { env with historySearch := .error ehist } c q st
        = handleChatMessage { env with historySearch := .ok [] } c q st)
      ∧ (∃ resp, (handleChatMessage { env with kbSearch := .error ekb } c q st).result
          = .ok resp)
      ∧ (∃ resp, (handleChatMessage { env with uploadSearch := .error eup } c q st).result
          = .ok resp)
      ∧ (∃ resp, (handleChatMessage { env with historySearch := .error ehist } c q st).result
          = .ok resp) := by
  refine ⟨rfl, rfl, rfl, ?_, ?_, ?_⟩
  · exact ⟨_, handleChatMessage_result_ok { env with kbSearch := .error ekb } c q st v t
      h1 h2 h3 hg hc⟩
  · exact ⟨_, handleChatMessage_result_ok { env with uploadSearch := .error eup } c q st v t
      h1 h2 h3 hg hc⟩
  · exact ⟨_, handleChatMessage_result_ok { env with historySearch := .error ehist } c q st v t
      h1 h2 h3 hg hc⟩

/-- C7 witness: the theorem applied to the concrete all-success
environment. -/
theorem partition_failure_graceful_witness :
    (handleChatMessage { okChatEnv with uploadSearch := .error "e2" } "c1" "hello" emptyState
        = handleChatMessage { okChatEnv with uploadSearch := .ok [] } "c1" "hello" emptyState)
      ∧ (∃ resp, (handleChatMessage { okChatEnv with uploadSearch := .error "e2" }
          "c1" "hello" emptyState).result = .ok resp) := by
  have h := partition_failure_graceful okChatEnv "c1" "hello" emptyState
    "e1" "e2" "e3" [1] "answer" rfl rfl rfl rfl rfl
  exact ⟨h.2.1, h.2.2.2.2.1⟩

/-- C9: a chat turn that reaches the retrieval step with a linked knowledge
base issues exactly three searches: `collection_kb` with limit 4,
`collection_uploads` with limit 3, and `collection_chat_history` with limit
`search_limit_history + 1 = 4` (so that the just-stored query can be
filtered while still yielding up to 3 usable history hits). -/
theorem search_limits_issued (env : ChatEnv) (c q : String) (st : ChatState) (v : Vec)
    (h1 : env.conversationExists = true) (h2 : env.embedQuery = .ok [v])
    (h3 : env.userUpsert = .ok ()) (h4 : truthyOptStr env.kbId = true) :
    (handleChatMessage env c q st).calls
        = [⟨"collection_kb", searchLimitKb⟩, ⟨"collection_uploads", searchLimitUploads⟩,
           ⟨"collection_chat_history", searchLimitHistory + 1⟩]
      ∧ searchLimitKb = 4 ∧ searchLimitUploads = 3 ∧ searchLimitHistory = 3
      ∧ searchLimitHistory + 1 = 4 := by
  rw [handleChatMessage_eq_afterStore env c q st v h1 h2 h3]
  rw [chatAfterStore_calls]
  refine ⟨?_, rfl, rfl, rfl, rfl⟩
  unfold searchCallsMade
  rw [h4]
  rfl

/-- C9 witness: the theorem applied to the concrete all-success
environment, which has a linked knowledge base. -/
theorem search_limits_issued_witness :
    (handleChatMessage okChatEnv "c1" "hello" emptyState).calls
        = [⟨"collection_kb", searchLimitKb⟩, ⟨"collection_uploads", searchLimitUploads⟩,
           ⟨"collection_chat_history", searchLimitHistory + 1⟩]
      ∧ searchLimitKb = 4 ∧ searchLimitUploads = 3 ∧ searchLimitHistory = 3
      ∧ searchLimitHistory + 1 = 4 :=
  search_limits_issued okChatEnv "c1" "hello" emptyState [1] rfl rfl rfl rfl

/-- C3: in a chat turn that reaches retrieval with a linked knowledge base
whose KB search returned a hit with non-empty payload text, the assembled
context contains at least one knowledge-base-labeled block, and the
emissions are ordered by partition: every KB block precedes every
upload-sourced block, which in turn precedes every history line. -/
theorem kb_priority_ordering (env : ChatEnv) (c q : String) (st : ChatState) (v : Vec)
    (kbHits : List Hit) (h0 : Hit)
    (h1 : env.conversationExists = true) (h2 : env.embedQuery = .ok [v])
    (h3 : env.userUpsert = .ok ()) (h4 : truthyOptStr env.kbId = true)
    (h5 : env.kbSearch = .ok kbHits) (h6 : h0 ∈ kbHits)
    (h7 : (usableText h0.payload).isSome) :
    ∃ r, (handleChatMessage env c q st).retrieval = some r
      ∧ (∃ e ∈ r.emissions, e.partition = .kb
          ∧ ∃ f t, e.block = kbBlockLabel ++ f ++ "\x27:\n" ++ t)
      ∧ r.emissions.Pairwise (fun a b => partRank a.partition ≤ partRank b.partition)
      ∧ r.contextChunks = r.emissions.map Emission.block := by
  rw [handleChatMessage_eq_afterStore env c q st v h1 h2 h3]
  rw [chatAfterStore_retrieval]
  have hkb : effectiveKbResults env = kbHits := by
    unfold effectiveKbResults
    rw [h4, if_pos rfl, h5]
    rfl
  refine ⟨_, rfl, ?_, ?_, rfl⟩
  · -- at least one KB-labeled block
    have hc := processHits_complete .kb env.userMessageId (effectiveKbResults env) [] h0.id
      (by simp) (by simp) ⟨h0, by rw [hkb]; exact h6, rfl, h7⟩
    rcases hc with ⟨e, he, hid⟩
    refine ⟨e, ?_, processHits_partition _ _ _ _ e he, ?_⟩
    · rw [combineContext_emissions]
      exact List.mem_append_left _ (List.mem_append_left _ he)
    · rcases processHits_block_shape .kb env.userMessageId (effectiveKbResults env) [] e he
        with ⟨p, t, hb⟩
      exact ⟨p.sourceFilename.getD "N/A", t, hb⟩
  · -- partition-ordered emissions
    rw [combineContext_emissions]
    rw [List.pairwise_append, List.pairwise_append]
    have hA := processHits_partition .kb env.userMessageId (effectiveKbResults env) []
    have hB := processHits_partition .uploads env.userMessageId (effectiveUploadResults env)
      (processHits .kb env.userMessageId (effectiveKbResults env) []).2.2
    have hC := processHits_partition .history env.userMessageId (effectiveHistoryResults env)
      (processHits .uploads env.userMessageId (effectiveUploadResults env)
        (processHits .kb env.userMessageId (effectiveKbResults env) []).2.2).2.2
    refine ⟨⟨?_, ?_, ?_⟩, ?_, ?_⟩
    · exact List.pairwise_of_forall_mem_list fun a ha b hb => by
        rw [hA a ha, hA b hb]
    · exact List.pairwise_of_forall_mem_list fun a ha b hb => by
        rw [hB a ha, hB b hb]
    · intro a ha b hb
      rw [hA a ha, hB b hb]
      decide
    · exact List.pairwise_of_forall_mem_list fun a ha b hb => by
        rw [hC a ha, hC b hb]
    · intro a ha b hb
      rw [hC b hb]
      rcases List.mem_append.mp ha with haA | haB
      · rw [hA a haA]; decide
      · rw [hB a haB]; decide

/-- C3 witness: the theorem applied to the concrete all-success
environment, whose KB search returns one usable hit. -/
theorem kb_priority_ordering_witness :
    ∃ r, (handleChatMessage okChatEnv "c1" "hello" emptyState).retrieval = some r
      ∧ (∃ e ∈ r.emissions, e.partition = .kb
          ∧ ∃ f t, e.block = kbBlockLabel ++ f ++ "\x27:\n" ++ t)
      ∧ r.emissions.Pairwise (fun a b => partRank a.partition ≤ partRank b.partition)
      ∧ r.contextChunks = r.emissions.map Emission.block :=
  kb_priority_ordering okChatEnv "c1" "hello" emptyState [1]
    [⟨"k1", 9, ⟨some "kb text", some "a.pdf", none⟩⟩]
    ⟨"k1", 9, ⟨some "kb text", some "a.pdf", none⟩⟩
    rfl rfl rfl rfl rfl (by decide) (by decide)

/-- C4 counterexample: the id `x` is returned by both the KB search (with a
missing payload text) and the upload search (with an empty payload text),
yet it contributes zero context blocks, not exactly one. -/
theorem dedup_counterexample :
    ("x" ∈ ([⟨"x", 0, ⟨none, none, none⟩⟩] : List Hit).map Hit.id)
      ∧ ("x" ∈ ([⟨"x", 0, ⟨some "", none, none⟩⟩] : List Hit).map Hit.id)
      ∧ ((combineContext [⟨"x", 0, ⟨none, none, none⟩⟩] [⟨"x", 0, ⟨some "", none, none⟩⟩]
            [] "u").emissions.filter fun e => e.id == "x").length = 0 :=
  ⟨by decide, by decide, rfl⟩

/-- C4 (amended): a vector id contributes AT MOST one context block overall;
when it yields a usable hit (non-empty payload text and, for history, not
the just-stored user message id), the block comes from the first partition
in the order KB, uploads, history in which it yields a usable hit. -/
theorem dedup_at_most_one (kbHits upHits histHits : List Hit) (uid x : String) :
    ((combineContext kbHits upHits histHits uid).emissions.filter
        fun e => e.id == x).length ≤ 1
      ∧ (usableHitIn kbHits x →
          ∃ e ∈ (combineContext kbHits upHits histHits uid).emissions,
            e.id = x ∧ e.partition = .kb)
      ∧ (¬ usableHitIn kbHits x → usableHitIn upHits x →
          ∃ e ∈ (combineContext kbHits upHits histHits uid).emissions,
            e.id = x ∧ e.partition = .uploads)
      ∧ (¬ usableHitIn kbHits x → ¬ usableHitIn upHits x → usableHitIn histHits x →
          x ≠ uid →
          ∃ e ∈ (combineContext kbHits upHits histHits uid).emissions,
            e.id = x ∧ e.partition = .history) := by
  have hAmem : ∀ y, y ∈ (processHits .kb uid kbHits []).2.2 ↔
      (∃ e ∈ (processHits .kb uid kbHits []).1, e.id = y) := by
    intro y
    simpa using processHits_seen_mem .kb uid kbHits [] y
  have hBmem := processHits_seen_mem .uploads uid upHits (processHits .kb uid kbHits []).2.2
  have hxA : ¬ usableHitIn kbHits x → x ∉ (processHits .kb uid kbHits []).2.2 := by
    intro hk hmem
    rcases (hAmem x).mp hmem with ⟨e, he, rfl⟩
    rcases processHits_sound .kb uid kbHits [] e he with ⟨h, hm, hid, hu⟩
    exact hk ⟨h, hm, hid, hu⟩
  have hxB : ¬ usableHitIn kbHits x → ¬ usableHitIn upHits x →
      x ∉ (processHits .uploads uid upHits (processHits .kb uid kbHits []).2.2).2.2 := by
    intro hk hu hmem
    rcases (hBmem x).mp hmem with ⟨e, he, rfl⟩ | hmem2
    · rcases processHits_sound .uploads uid upHits _ e he with ⟨h, hm, hid, hus⟩
      exact hu ⟨h, hm, hid, hus⟩
    · exact hxA hk hmem2
  refine ⟨filter_id_length_le_one _ (combineContext_ids_nodup kbHits upHits histHits uid) x,
    ?_, ?_, ?_⟩
  · intro hk
    rcases processHits_complete .kb uid kbHits [] x (by simp) (by simp) hk with ⟨e, he, hid⟩
    refine ⟨e, ?_, hid, processHits_partition _ _ _ _ e he⟩
    rw [combineContext_emissions]
    exact List.mem_append_left _ (List.mem_append_left _ he)
  · intro hk hu
    rcases processHits_complete .uploads uid upHits _ x (hxA hk) (by simp) hu
      with ⟨e, he, hid⟩
    refine ⟨e, ?_, hid, processHits_partition _ _ _ _ e he⟩
    rw [combineContext_emissions]
    exact List.mem_append_left _ (List.mem_append_right _ he)
  · intro hk hu hh hxu
    rcases processHits_complete .history uid histHits _ x (hxB hk hu)
      (by simp [hxu]) hh with ⟨e, he, hid⟩
    refine ⟨e, ?_, hid, processHits_partition _ _ _ _ e he⟩
    rw [combineContext_emissions]
    exact List.mem_append_right _ he

/-- C4 witness: the amended theorem applied to a concrete usable KB hit. -/
theorem dedup_at_most_one_witness :
    (((combineContext [⟨"x", 9, ⟨some "kb text", some "a.pdf", none⟩⟩] [] [] "u").emissions.filter
        fun e => e.id == "x").length ≤ 1)
      ∧ ∃ e ∈ (combineContext [⟨"x", 9, ⟨some "kb text", some "a.pdf", none⟩⟩]
          [] [] "u").emissions, e.id = "x" ∧ e.partition = .kb := by
  have h := dedup_at_most_one [⟨"x", 9, ⟨some "kb text", some "a.pdf", none⟩⟩] [] [] "u" "x"
  exact ⟨h.1, h.2.1 ⟨⟨"x", 9, ⟨some "kb text", some "a.pdf", none⟩⟩, by decide, rfl, by decide⟩⟩

/-- C5: in every chat turn that reaches retrieval, the vector id of the
user message just stored for the turn never appears among the history
emissions of the assembled context, no matter what the history search
returned. -/
theorem history_self_exclusion (env : ChatEnv) (c q : String) (st : ChatState) (v : Vec)
    (h1 : env.conversationExists = true) (h2 : env.embedQuery = .ok [v])
    (h3 : env.userUpsert = .ok ()) :
    ∃ r, (handleChatMessage env c q st).retrieval = some r
      ∧ ∀ e ∈ r.emissions, e.partition = .history → e.id ≠ env.userMessageId := by
  rw [handleChatMessage_eq_afterStore env c q st v h1 h2 h3]
  rw [chatAfterStore_retrieval]
  refine ⟨_, rfl, ?_⟩
  intro e he hp
  rw [combineContext_emissions] at he
  rcases List.mem_append.mp he with hAB | hC
  · rcases List.mem_append.mp hAB with hA | hB
    · rw [processHits_partition .kb _ _ _ e hA] at hp
      cases hp
    · rw [processHits_partition .uploads _ _ _ e hB] at hp
      cases hp
  · exact processHits_history_ne_uid env.userMessageId _ _ e hC

/-- C5 witness: the theorem applied to the concrete all-success
environment, whose history search returns the just-stored user message
back. -/
theorem history_self_exclusion_witness :
    ∃ r, (handleChatMessage okChatEnv "c1" "hello" emptyState).retrieval = some r
      ∧ ∀ e ∈ r.emissions, e.partition = .history → e.id ≠ okChatEnv.userMessageId :=
  history_self_exclusion okChatEnv "c1" "hello" emptyState [1] rfl rfl rfl

/-- C6: in every chat turn that reaches retrieval, the context handed to
prompt building is never empty: if the concatenated context string is empty
or whitespace-only (in particular when no partition yields a usable hit),
the canned fallback sentence is substituted. -/
theorem empty_context_substitution (env : ChatEnv) (c q : String) (st : ChatState) (v : Vec)
    (h1 : env.conversationExists = true) (h2 : env.embedQuery = .ok [v])
    (h3 : env.userUpsert = .ok ()) :
    ∃ r, (handleChatMessage env c q st).retrieval = some r
      ∧ (handleChatMessage env c q st).context = some (finalContextString r)
      ∧ (handleChatMessage env c q st).prompt = some (buildPrompt (finalContextString r) q)
      ∧ finalContextString r ≠ ""
      ∧ (pyStrip r.contextString = "" → finalContextString r = noContextFallback)
      ∧ (r.contextChunks = [] → finalContextString r = noContextFallback) := by
  rw [handleChatMessage_eq_afterStore env c q st v h1 h2 h3]
  rw [chatAfterStore_retrieval, chatAfterStore_context, chatAfterStore_prompt]
  refine ⟨_, rfl, rfl, rfl, finalContextString_ne_empty _,
    finalContextString_of_strip_empty _, ?_⟩
  intro hchunks
  apply finalContextString_of_strip_empty
  have hems : (combineContext (effectiveKbResults env) (effectiveUploadResults env)
      (effectiveHistoryResults env) env.userMessageId).emissions.map Emission.block = [] :=
    hchunks
  rw [show (combineContext (effectiveKbResults env) (effectiveUploadResults env)
      (effectiveHistoryResults env) env.userMessageId).contextString
    = String.intercalate "\n\n---\n\n"
        ((combineContext (effectiveKbResults env) (effectiveUploadResults env)
          (effectiveHistoryResults env) env.userMessageId).emissions.map Emission.block)
    from rfl]
  rw [hems]
  rfl

/-- C6 witness: the theorem applied to a concrete environment whose three
searches all return zero hits. -/
theorem empty_context_substitution_witness :
    ∃ r, (handleChatMessage
        { okChatEnv with kbSearch := .ok [], uploadSearch := .ok [], historySearch := .ok [] }
        "c1" "hello" emptyState).retrieval = some r
      ∧ (handleChatMessage
          { okChatEnv with kbSearch := .ok [], uploadSearch := .ok [], historySearch := .ok [] }
          "c1" "hello" emptyState).context = some (finalContextString r)
      ∧ (handleChatMessage
          { okChatEnv with kbSearch := .ok [], uploadSearch := .ok [], historySearch := .ok [] }
          "c1" "hello" emptyState).prompt
          = some (buildPrompt (finalContextString r) "hello")
      ∧ finalContextString r ≠ ""
      ∧ (pyStrip r.contextString = "" → finalContextString r = noContextFallback)
      ∧ (r.contextChunks = [] → finalContextString r = noContextFallback) :=
  empty_context_substitution
    { okChatEnv with kbSearch := .ok [], uploadSearch := .ok [], historySearch := .ok [] }
    "c1" "hello" emptyState [1] rfl rfl rfl

/-- C8 counterexample: when extraction yields zero chunks, the KB
background task leaves the document in the terminal FAILURE state
`"error"` (with a no-content message), refuting the claim that the KB
document does not end in a failure state. -/
theorem kb_zero_chunks_counterexample :
    (processKbUploadTask ⟨.ok [], .ok [], .ok ()⟩).status = "error"
      ∧ (processKbUploadTask ⟨.ok [], .ok [], .ok ()⟩).errorMessage
          = some "Document processor returned no content for non-image file." :=
  ⟨rfl, rfl⟩

/-- C8 (amended): on zero extracted chunks the session-upload path returns
the non-error no-content result with zero chunks added, while the KB
background task does not raise but records the document in status `"error"`
with the no-content message. -/
theorem zero_chunks_no_content (senv : SessionUploadEnv) (kenv : KbTaskEnv) (c : String)
    (hs1 : senv.conversationExists = true) (hs2 : senv.filename ≠ "")
    (hs3 : senv.processResult = .ok [])
    (hk : kenv.processResult = .ok []) :
    uploadFileToConversation senv c = .ok ⟨sessionNoContentMessage, senv.filename, none, 0⟩
      ∧ processKbUploadTask kenv
          = ⟨"error", some "Document processor returned no content for non-image file."⟩ := by
  constructor
  · simp [uploadFileToConversation, hs1, hs2, hs3]
  · simp [processKbUploadTask, hk]

/-- C8 witness: the amended theorem applied to concrete zero-chunk
uploads. -/
theorem zero_chunks_no_content_witness :
    uploadFileToConversation ⟨true, "f.txt", .ok [], .ok [], .ok (), .ok (), "d1"⟩ "c1"
        = .ok ⟨sessionNoContentMessage, "f.txt", none, 0⟩
      ∧ processKbUploadTask ⟨.ok [], .ok [[1]], .ok ()⟩
          = ⟨"error", some "Document processor returned no content for non-image file."⟩ :=
  zero_chunks_no_content ⟨true, "f.txt", .ok [], .ok [], .ok (), .ok (), "d1"⟩
    ⟨.ok [], .ok [[1]], .ok ()⟩ "c1" rfl (by decide) rfl rfl

/-- C10: a create-conversation request whose payload carries a truthy
knowledge-base id that the existence check does not find — or whose
existence check raises a database error — still succeeds (given the insert
commits) and stores a null knowledge-base link. -/
theorem unknown_kb_dropped (env : CreateEnv) (p : CreatePayload) (k : String)
    (h1 : p.knowledgeBaseId = some k) (h2 : k ≠ "")
    (h3 : env.kbCheck = .ok false ∨ ∃ msg, env.kbCheck = .error msg)
    (h4 : env.commit = .ok ()) :
    createConversation env (some p) = .ok ⟨env.newConversationId, none, p.modelId⟩ := by
  rcases h3 with h3 | ⟨msg, h3⟩ <;> simp [createConversation, h1, h2, h3, h4]

/-- C10 witness: the theorem applied to a concrete unknown KB id and to a
concrete raising existence check. -/
theorem unknown_kb_dropped_witness :
    createConversation ⟨"cid", .ok false, .ok ()⟩ (some ⟨some "kbX", some "m"⟩)
        = .ok ⟨"cid", none, some "m"⟩
      ∧ createConversation ⟨"cid2", .error "db down", .ok ()⟩ (some ⟨some "kbX", none⟩)
        = .ok ⟨"cid2", none, none⟩ :=
  ⟨unknown_kb_dropped ⟨"cid", .ok false, .ok ()⟩ ⟨some "kbX", some "m"⟩ "kbX" rfl
      (by decide) (Or.inl rfl) rfl,
    unknown_kb_dropped ⟨"cid2", .error "db down", .ok ()⟩ ⟨some "kbX", none⟩ "kbX" rfl
      (by decide) (Or.inr ⟨"db down", rfl⟩) rfl⟩

end CassaGPT
